import Mathlib

/-!
Verification of the SAHAYAK AI repository: a shallow embedding in Lean 4 of
the frontend API client (`frontend/src/api/client.js`), the role-based
dashboard dispatch (`frontend/src/App.jsx`), the SOS history filtering
(`frontend/src/pages/History.jsx`), and — where the backend Python sources
are not part of the repository snapshot — models of the backend behaviour
written from the specification's own words (each such definition is marked
`Modelled from the spec:`).
-/

namespace Sahayak

/-! ## JavaScript string primitives -/

/-- Membership of `needle` as a contiguous run inside `hay`, on character
lists; the empty needle is contained in every list.  This models
JavaScript's `String.prototype.includes`. -/
def charsInclude (needle : List Char) : List Char → Bool
  | [] => needle.isEmpty
  | c :: rest => needle.isPrefixOf (c :: rest) || charsInclude needle rest

/-- JavaScript `hay.includes(needle)` on Lean strings. -/
def jsIncludes (hay needle : String) : Bool :=
  charsInclude needle.data hay.data

/-- JavaScript `String.prototype.toLowerCase` on the strings this client
handles: each character lowercased in place (`Char.toLower`).  Core's
`String.toLower` is the same map, but its `String.map` recursion is
well-founded and so does not reduce in the kernel; this structural version
does. -/
def jsToLower (s : String) : String :=
  String.mk (s.data.map Char.toLower)

/-- JavaScript truthiness of a nullable string: `null` and the empty string
are falsy, every other string is truthy.  This is the test `if (token)`,
`if (subject)`, `if (grade)` perform in the client code. -/
def jsTruthy : Option String → Bool
  | none => false
  | some s => decide (s ≠ "")

theorem charsInclude_nil_needle (l : List Char) : charsInclude [] l = true := by
  cases l <;> simp [charsInclude, List.isPrefixOf]

theorem charsInclude_iff (needle hay : List Char) :
    charsInclude needle hay = true ↔ ∃ a b, hay = a ++ (needle ++ b) := by
  induction hay with
  | nil =>
      simp only [charsInclude, List.isEmpty_iff]
      constructor
      · intro h; exact ⟨[], [], by simp [h]⟩
      · rintro ⟨a, b, h⟩
        rcases List.append_eq_nil.mp h.symm with ⟨ha, hrest⟩
        rcases List.append_eq_nil.mp hrest with ⟨hn, _⟩
        exact hn
  | cons c rest ih =>
      simp only [charsInclude, Bool.or_eq_true, List.isPrefixOf_iff_prefix, ih]
      constructor
      · rintro (⟨t, ht⟩ | ⟨a, b, h⟩)
        · exact ⟨[], t, by simp [ht]⟩
        · exact ⟨c :: a, b, by simp [h]⟩
      · rintro ⟨a, b, h⟩
        cases a with
        | nil => exact Or.inl ⟨b, by simpa using h.symm⟩
        | cons x xs =>
            right
            refine ⟨xs, b, ?_⟩
            have := h
            simp only [List.cons_append] at this
            exact (List.cons.injEq _ _ _ _ ▸ this).2

/-! ## SmartDashboard role dispatch (frontend/src/App.jsx)

The component computes `const role = user?.role?.toLowerCase();` and then
switches on it: `'crp'` renders the CRP dashboard, `'diet'` the DIET
dashboard, and `'teacher'` falls through to the `default` branch rendering
the teacher dashboard. -/

/-- User object as the dashboard dispatch sees it: only the `role` field is
consulted, and it may be absent (JavaScript `undefined`). -/
structure User where
  role : Option String
deriving DecidableEq

/-- Dashboard components reachable from `SmartDashboard`. -/
inductive DashView where
  | crp
  | diet
  | teacher
deriving DecidableEq

/-- Optional chaining `user?.role?.toLowerCase()` as `SmartDashboard` computes it. -/
def roleLower (user : Option User) : Option String :=
  (user.bind User.role).map jsToLower

/-- SmartDashboard from `App.jsx`: a `switch` on the lowercased role.  A
JavaScript `switch` compares with strict equality case by case, which the
nested conditional mirrors. -/
def SmartDashboard (user : Option User) : DashView :=
  if roleLower user = some "crp" then .crp
  else if roleLower user = some "diet" then .diet
  else .teacher

/-- C1: the dashboard view is selected by string comparison on the
lowercased role: `crp` selects the CRP dashboard, `diet` the DIET
dashboard, and every other value — `teacher`, any other string, or a
missing role — falls to the default teacher dashboard. -/
theorem C1_smart_dashboard_dispatch (user : Option User) :
    (SmartDashboard user = .crp ↔ roleLower user = some "crp") ∧
    (SmartDashboard user = .diet ↔ roleLower user = some "diet") ∧
    (SmartDashboard user = .teacher ↔
      (roleLower user ≠ some "crp" ∧ roleLower user ≠ some "diet")) ∧
    SmartDashboard none = .teacher := by
  unfold SmartDashboard
  refine ⟨?_, ?_, ?_, by simp [roleLower]⟩ <;> split_ifs <;> simp_all

/-! ## Axios response interceptor (frontend/src/api/client.js)

On a rejected response whose `error.response?.status === 401` the handler
removes the `token` and `user` keys from `localStorage`, sets
`window.location.href = '/login'`, and in every case returns
`Promise.reject(error)`; fulfilled responses pass through unchanged. -/

/-- Browser `localStorage` restricted to the two keys the client uses. -/
structure ClientStorage where
  token : Option String
  user : Option String
deriving DecidableEq

/-- Browser state visible to the interceptor: storage plus the current
location (`window.location.href`). -/
structure BrowserState where
  storage : ClientStorage
  location : String
deriving DecidableEq

/-- Axios error object: `error.response?.status` is `none` when the request
never got a response. -/
structure ApiError where
  status : Option Nat
deriving DecidableEq

/-- Outcome of an HTTP exchange as axios hands it to the interceptor pair. -/
inductive AxiosResult where
  | fulfilled (body : String)
  | rejected (err : ApiError)
deriving DecidableEq

/-- Response interceptor from `client.js`: fulfilled responses are returned
as-is; a rejected one with status 401 clears the stored token and user and
redirects to `/login`; every rejection is re-raised via
`Promise.reject(error)`. -/
def responseInterceptor (result : AxiosResult) (st : BrowserState) :
    BrowserState × Except ApiError String :=
  match result with
  | .fulfilled body => (st, .ok body)
  | .rejected err =>
      if err.status = some 401 then
        ({ storage := { token := none, user := none }, location := "/login" },
          .error err)
      else
        (st, .error err)

/-- C2: a 401 rejection clears both stored entries, redirects to the login
page and still propagates the original error; a rejection with any other
status (or none) leaves the browser state unchanged and also propagates the
error. -/
theorem C2_response_interceptor_401 (err : ApiError) (st : BrowserState) :
    (err.status = some 401 →
      (responseInterceptor (.rejected err) st).1.storage.token = none ∧
      (responseInterceptor (.rejected err) st).1.storage.user = none ∧
      (responseInterceptor (.rejected err) st).1.location = "/login" ∧
      (responseInterceptor (.rejected err) st).2 = .error err) ∧
    (err.status ≠ some 401 →
      (responseInterceptor (.rejected err) st).1 = st ∧
      (responseInterceptor (.rejected err) st).2 = .error err) := by
  unfold responseInterceptor
  constructor
  · intro h; simp [h]
  · intro h; simp [h]

/-! ## Axios request interceptor (frontend/src/api/client.js)

`const token = localStorage.getItem('token'); if (token) {
config.headers.Authorization = ` + `Bearer $\x7btoken\x7d` + `; } return config;`
Note the JavaScript truthiness test: a stored empty string is falsy, so no
header is set for it. -/

/-- Header fields of the axios request configuration that the client
touches. -/
structure Headers where
  contentType : Option String
  authorization : Option String
deriving DecidableEq

/-- Axios request configuration as the interceptor receives it. -/
structure AxiosConfig where
  url : String
  method : String
  headers : Headers
  data : Option String
deriving DecidableEq

/-- Request interceptor from `client.js`: when the stored token is truthy
(present and non-empty) it sets the Authorization header to
`Bearer ` followed by the token; otherwise the configuration passes through
untouched. -/
def requestInterceptor (storedToken : Option String) (config : AxiosConfig) :
    AxiosConfig :=
  match storedToken with
  | none => config
  | some t =>
      if t = "" then config
      else { config with
              headers := { config.headers with
                            authorization := some ("Bearer " ++ t) } }

/-- C3 counterexample: with the empty string stored under `token` — a token
present in client storage — the interceptor adds no Authorization header,
while the claim predicates a header equal to `Bearer ` followed by that
(empty) token. -/
theorem C3_counterexample :
    (requestInterceptor (some "")
        { url := "/sos/quick", method := "post",
          headers := { contentType := some "application/json",
                       authorization := none },
          data := none }).headers.authorization ≠ some ("Bearer " ++ "") := by
  decide

/-- C3 (amended): for every stored token that is present and non-empty the
request carries an Authorization header equal to `Bearer ` followed by the
token; when no token is stored, or the stored token is the empty string
(falsy in JavaScript), the configuration — header included — is returned
unchanged; and in every case all other fields of the configuration are left
unchanged. -/
theorem C3_request_interceptor_amended (storedToken : Option String)
    (config : AxiosConfig) :
    (∀ t, storedToken = some t → t ≠ "" →
      (requestInterceptor storedToken config).headers.authorization =
        some ("Bearer " ++ t)) ∧
    (storedToken = none ∨ storedToken = some "" →
      requestInterceptor storedToken config = config) ∧
    ((requestInterceptor storedToken config).url = config.url ∧
     (requestInterceptor storedToken config).method = config.method ∧
     (requestInterceptor storedToken config).data = config.data ∧
     (requestInterceptor storedToken config).headers.contentType =
       config.headers.contentType) := by
  unfold requestInterceptor
  rcases storedToken with _ | t
  · simp
  · by_cases h : t = "" <;> simp [h]

/-! ## sosAPI.quick URL construction (frontend/src/api/client.js)

`const params = new URLSearchParams(\x7b raw_input: rawInput \x7d);
if (subject) params.append('subject', subject);
if (grade) params.append('grade', grade);
const response = await api.post('/sos/quick?' + params.toString());`
The `URLSearchParams` serialisation percent-encodes keys and values in the
application/x-www-form-urlencoded set (space becomes `+`, bytes outside
letters, digits and `*-._` become `%XX`). -/

/-- Uppercase hexadecimal digit of a value below 16. -/
def hexUpper (n : Nat) : Char :=
  if n < 10 then Char.ofNat (48 + n) else Char.ofNat (55 + n)

/-- Bytes `URLSearchParams` leaves verbatim: ASCII letters, digits, and the
four characters `*`, `-`, `.`, `_`. -/
def isFormSafeByte (b : Nat) : Bool :=
  decide ((65 ≤ b ∧ b ≤ 90) ∨ (97 ≤ b ∧ b ≤ 122) ∨ (48 ≤ b ∧ b ≤ 57) ∨
    b = 42 ∨ b = 45 ∨ b = 46 ∨ b = 95)

/-- Form-urlencoding of one byte: space becomes `+`, safe bytes stand for
themselves, everything else is percent-escaped. -/
def encodeByte (b : Nat) : String :=
  if b = 32 then "+"
  else if isFormSafeByte b then String.singleton (Char.ofNat b)
  else "%" ++ String.singleton (hexUpper (b / 16)) ++
    String.singleton (hexUpper (b % 16))

/-- UTF-8 bytes of a code point, as natural numbers. -/
def utf8Bytes (c : Nat) : List Nat :=
  if c < 128 then [c]
  else if c < 2048 then [192 + c / 64, 128 + c % 64]
  else if c < 65536 then [224 + c / 4096, 128 + c / 64 % 64, 128 + c % 64]
  else [240 + c / 262144, 128 + c / 4096 % 64, 128 + c / 64 % 64, 128 + c % 64]

/-- Percent-encoding `URLSearchParams` applies to each key and value. -/
def urlEncode (s : String) : String :=
  String.join (s.data.map fun ch =>
    String.join ((utf8Bytes ch.toNat).map encodeByte))

/-- Serialisation of a parameter list, as `URLSearchParams.toString()`:
entries joined by ampersands, each entry the encoded key, an equals sign
and the encoded value. -/
def serializeParams : List (String × String) → String
  | [] => ""
  | [p] => urlEncode p.1 ++ "=" ++ urlEncode p.2
  | p :: q :: rest =>
      urlEncode p.1 ++ "=" ++ urlEncode p.2 ++ "&" ++ serializeParams (q :: rest)

/-- Parameter list built by `sosAPI.quick`: `raw_input` always, then
`subject` and `grade` only when truthy (non-null and non-empty). -/
def quickParams (rawInput : String) (subject grade : Option String) :
    List (String × String) :=
  let params := [("raw_input", rawInput)]
  let params := match subject with
    | some s => if s = "" then params else params ++ [("subject", s)]
    | none => params
  match grade with
  | some g => if g = "" then params else params ++ [("grade", g)]
  | none => params

/-- Query string of the URL `sosAPI.quick` posts to. -/
def quickQuery (rawInput : String) (subject grade : Option String) : String :=
  serializeParams (quickParams rawInput subject grade)

theorem serializeParams_cons (p : String × String)
    (rest : List (String × String)) :
    ∃ tail, serializeParams (p :: rest) =
      urlEncode p.1 ++ "=" ++ (urlEncode p.2 ++ tail) := by
  cases rest with
  | nil => exact ⟨"", by simp [serializeParams, String.append_assoc]⟩
  | cons q r =>
      exact ⟨"&" ++ serializeParams (q :: r),
        by simp [serializeParams, String.append_assoc]⟩

theorem quickParams_shape (rawInput : String) (subject grade : Option String) :
    quickParams rawInput subject grade =
      ("raw_input", rawInput) ::
        ((if jsTruthy subject then [("subject", subject.getD "")] else []) ++
         (if jsTruthy grade then [("grade", grade.getD "")] else [])) := by
  rcases subject with _ | s <;> rcases grade with _ | g <;>
    simp only [quickParams, jsTruthy, Option.getD] <;>
    split_ifs <;> simp_all

theorem urlEncode_raw_input_key : urlEncode "raw_input" = "raw_input" := by
  decide

/-- C10: the query string built by `sosAPI.quick` always starts with
`raw_input=` followed by the URL-encoded input; the parameter list carries
a `subject` entry exactly when the supplied subject is truthy, and a
`grade` entry exactly when the supplied grade is truthy (passing null or
the empty string omits the key). -/
theorem C10_quick_query_params (rawInput : String) (subject grade : Option String) :
    (quickParams rawInput subject grade).head? = some ("raw_input", rawInput) ∧
    (∃ rest, quickQuery rawInput subject grade =
      "raw_input=" ++ (urlEncode rawInput ++ rest)) ∧
    ((∃ v, ("subject", v) ∈ quickParams rawInput subject grade) ↔
      jsTruthy subject = true) ∧
    ((∃ v, ("grade", v) ∈ quickParams rawInput subject grade) ↔
      jsTruthy grade = true) := by
  refine ⟨?_, ?_, ?_, ?_⟩
  · rw [quickParams_shape]; rfl
  · obtain ⟨tail, ht⟩ := serializeParams_cons ("raw_input", rawInput)
      ((if jsTruthy subject then [("subject", subject.getD "")] else []) ++
       (if jsTruthy grade then [("grade", grade.getD "")] else []))
    refine ⟨tail, ?_⟩
    rw [quickQuery, quickParams_shape, ht, urlEncode_raw_input_key]
    have h : ("raw_input" : String) ++ "=" = "raw_input=" := by decide
    rw [String.append_assoc, ← h, String.append_assoc]
  · rw [quickParams_shape]
    by_cases hs : jsTruthy subject = true <;>
      by_cases hg : jsTruthy grade = true <;>
        simp [hs, hg]
  · rw [quickParams_shape]
    by_cases hs : jsTruthy subject = true <;>
      by_cases hg : jsTruthy grade = true <;>
        simp [hs, hg]

/-! ## SOS history filtering (frontend/src/pages/History.jsx)

`const filteredRequests = sosRequests.filter(sos => \x7b
   const matchesFilter = filter === 'all' || sos.status === filter;
   const matchesSearch = sos.raw_input.toLowerCase().includes(searchQuery.toLowerCase()) ||
       sos.subject?.toLowerCase().includes(searchQuery.toLowerCase());
   return matchesFilter && matchesSearch; \x7d);`
A null `subject` makes the optional chain evaluate to `undefined`, which is
falsy, so such a record can only match through its `raw_input`. -/

/-- SOS history record as the page consumes it: `subject` may be null. -/
structure SOSRecord where
  raw_input : String
  subject : Option String
  status : String
deriving DecidableEq

/-- Search predicate of the History page: case-insensitive containment of
the query in the raw input, or in the subject when one is present. -/
def matchesSearch (sos : SOSRecord) (searchQuery : String) : Bool :=
  jsIncludes (jsToLower sos.raw_input) (jsToLower searchQuery) ||
    (match sos.subject with
     | some s => jsIncludes (jsToLower s) (jsToLower searchQuery)
     | none => false)

/-- Filtered list of the History page: status filter (with `all` passing
everything) conjoined with the search predicate. -/
def filteredRequests (sosRequests : List SOSRecord)
    (statusFilter searchQuery : String) : List SOSRecord :=
  sosRequests.filter fun sos =>
    (statusFilter == "all" || sos.status == statusFilter) &&
      matchesSearch sos searchQuery

/-- C9: a record is in the filtered history exactly when it is loaded, its
status passes the selected filter (every status passes `all`), and the
lowercased query occurs contiguously in its lowercased raw input or in its
lowercased subject when a subject is present; with filter `all` and the
empty query the filtered list is the loaded list itself. -/
theorem C9_history_filter (l : List SOSRecord)
    (statusFilter searchQuery : String) :
    (∀ r, r ∈ filteredRequests l statusFilter searchQuery ↔
      r ∈ l ∧ (statusFilter = "all" ∨ r.status = statusFilter) ∧
        ((∃ a b, (jsToLower r.raw_input).data = a ++ ((jsToLower searchQuery).data ++ b)) ∨
         (∃ s, r.subject = some s ∧
            ∃ a b, (jsToLower s).data = a ++ ((jsToLower searchQuery).data ++ b)))) ∧
    filteredRequests l "all" "" = l := by
  constructor
  · intro r
    simp only [filteredRequests, List.mem_filter, Bool.and_eq_true,
      Bool.or_eq_true, beq_iff_eq, matchesSearch, jsIncludes]
    rcases r with ⟨ri, subj, st⟩
    cases subj <;> simp [charsInclude_iff, and_assoc]
  · rw [filteredRequests, List.filter_eq_self]
    intro a _
    simp [matchesSearch, jsIncludes, jsToLower, charsInclude_nil_needle]

/-! ## Request lifecycle (spec §3, §4.3; frontend/src/pages/History.jsx)

The backend `sos.py` handlers that create and update Request records are
not part of the repository snapshot; the status state machine below is
modelled from the specification.  The History page's `getStatusIcon`
switch, which is in the snapshot, consumes exactly these four status
strings. -/

/-- Request status: the spec's four-state progression
`pending → processing → resolved | failed`. -/
inductive Status where
  | pending
  | processing
  | resolved
  | failed
deriving DecidableEq

/-- Icons the History page's status switch can render. -/
inductive StatusIcon where
  | checkCircle
  | xCircle
  | clock
  | alertCircle
deriving DecidableEq

/-- getStatusIcon from `History.jsx`: a switch on the status string whose
`default` branch (covering `pending` and anything else) renders the alert
icon. -/
def getStatusIcon (status : String) : StatusIcon :=
  if status = "resolved" then .checkCircle
  else if status = "failed" then .xCircle
  else if status = "processing" then .clock
  else .alertCircle

/-- Status string a persisted record carries for each state. -/
def statusString : Status → String
  | .pending => "pending"
  | .processing => "processing"
  | .resolved => "resolved"
  | .failed => "failed"

/-- Modelled from the spec: the allowed status transitions of a Request
(`pending → processing → resolved | failed`); the backend handlers
performing these writes are absent from the snapshot. -/
def statusStep (s t : Status) : Bool :=
  match s, t with
  | .pending, .processing => true
  | .processing, .resolved => true
  | .processing, .failed => true
  | _, _ => false

/-- Request record of the spec's data model. -/
structure Request where
  id : Nat
  author : Nat
  raw_input : String
  detected_subject : Option String
  grade : Option String
  status : Status
  createdAt : Nat
deriving DecidableEq

/-- Modelled from the spec: a mutation of a persisted Request in normal
flow is a status transition and nothing else (\"mutated by status
transitions\", \"immutable after resolution\"). -/
def requestStep (r r' : Request) : Bool :=
  statusStep r.status r'.status && decide (r' = { r with status := r'.status })

/-- C7: a Request status takes only the four values; every transition step
follows the progression pending → processing → resolved or failed; a
resolved Request admits no further step (never mutated again); a failed
Request admits no step either (no automatic retry); and the History page's
switch renders the four statuses as the four icons, pending through the
default branch. -/
theorem C7_status_state_machine :
    (∀ s : Status, s = .pending ∨ s = .processing ∨ s = .resolved ∨ s = .failed) ∧
    (∀ s t : Status, statusStep s t = true →
      (s = .pending ∧ t = .processing) ∨
      (s = .processing ∧ (t = .resolved ∨ t = .failed))) ∧
    (∀ r r' : Request, r.status = .resolved → requestStep r r' = false) ∧
    (∀ r r' : Request, r.status = .failed → requestStep r r' = false) ∧
    (getStatusIcon (statusString .resolved) = .checkCircle ∧
     getStatusIcon (statusString .failed) = .xCircle ∧
     getStatusIcon (statusString .processing) = .clock ∧
     getStatusIcon (statusString .pending) = .alertCircle) := by
  refine ⟨?_, ?_, ?_, ?_, by decide⟩
  · intro s; cases s <;> simp
  · intro s t h; cases s <;> cases t <;> simp_all [statusStep]
  · intro r r' h
    simp [requestStep, h]
    intro hstep
    cases hr : r'.status <;> simp_all [statusStep]
  · intro r r' h
    simp [requestStep, h]
    intro hstep
    cases hr : r'.status <;> simp_all [statusStep]

/-! ## Dashboard aggregation (spec §4.3)

The backend `analytics_service.py` / `dashboard.py` computing the
role-scoped summaries is absent from the snapshot; the aggregation below is
modelled from the specification: a pure read that groups and counts the
persisted Request records inside a role scope and a trailing time window of
`days` days. -/

/-- Dashboard query: the requesting role's visibility scope over records,
the window length in days, and the evaluation instant (seconds). -/
structure DashboardQuery where
  scope : Request → Bool
  days : Nat
  now : Nat

/-- Filter a dashboard query induces on a record: visible to the role and
created inside the trailing window. -/
def dashMatches (q : DashboardQuery) (r : Request) : Bool :=
  q.scope r && decide (q.now ≤ r.createdAt + q.days * 86400)

/-- Distinct detected subjects present in a record list. -/
def subjectsOf (db : List Request) : List String :=
  (db.filterMap Request.detected_subject).dedup

/-- Aggregates the dashboard endpoint returns. -/
structure DashboardCounts where
  total : Nat
  perSubject : List (String × Nat)
  perDay : List (Nat × Nat)

/-- Modelled from the spec: the dashboard aggregation — totals, per-subject
counts and per-day activity over the records matching the query, computed
by counting and returned alongside the untouched store (pure read, no write
side effect). -/
def getDashboard (q : DashboardQuery) (db : List Request) :
    List Request × DashboardCounts :=
  (db,
   { total := (db.filter (dashMatches q)).length,
     perSubject := (subjectsOf (db.filter (dashMatches q))).map fun s =>
       (s, (db.filter fun r =>
            dashMatches q r && decide (r.detected_subject = some s)).length),
     perDay := (List.range q.days).map fun d =>
       (d, (db.filter fun r =>
            dashMatches q r && decide ((q.now - r.createdAt) / 86400 = d)).length) })

/-- C4: for every query (role scope and day window) the dashboard leaves the
record store unchanged, its total equals the number of records matching the
query's filter, and each per-subject and per-day entry equals the number of
matching records in that group. -/
theorem C4_dashboard_pure_counts (q : DashboardQuery) (db : List Request) :
    (getDashboard q db).1 = db ∧
    (getDashboard q db).2.total = (db.filter (dashMatches q)).length ∧
    (∀ s n, (s, n) ∈ (getDashboard q db).2.perSubject →
      n = (db.filter fun r =>
            dashMatches q r && decide (r.detected_subject = some s)).length) ∧
    (∀ d n, (d, n) ∈ (getDashboard q db).2.perDay →
      n = (db.filter fun r =>
            dashMatches q r && decide ((q.now - r.createdAt) / 86400 = d)).length) := by
  refine ⟨rfl, rfl, ?_, ?_⟩
  · intro s n h
    simp only [getDashboard, List.mem_map] at h
    obtain ⟨a, _, ha⟩ := h
    simp only [Prod.mk.injEq] at ha
    obtain ⟨rfl, rfl⟩ := ha
    rfl
  · intro d n h
    simp only [getDashboard, List.mem_map] at h
    obtain ⟨a, _, ha⟩ := h
    simp only [Prod.mk.injEq] at ha
    obtain ⟨rfl, rfl⟩ := ha
    rfl

/-! ## Knowledge exchange: shared solutions and votes (spec §3)

The backend `knowledge.py` endpoints are absent from the snapshot; the
operations below are modelled from the specification: a SharedSolution is
created on share, mutated by votes — a simple atomic counter increment —
and never deleted in normal flow.  A sequence of operations stands for any
serialisation of concurrent calls, which is what the storage layer's
atomic increments produce. -/

/-- SharedSolution record of the spec's data model. -/
structure SharedSolution where
  id : Nat
  author : Nat
  content : String
  votes : Nat
  trust_score : Nat
deriving DecidableEq

/-- Modelled from the spec: the normal-flow operations on the shared
solution store — share a new solution, or vote on one by id.  No deleting
operation exists. -/
inductive KnowledgeOp where
  | share (sol : SharedSolution)
  | vote (id : Nat)
deriving DecidableEq

/-- One operation applied to the store: share appends, vote increments the
tally of the matching solution. -/
def applyOp (store : List SharedSolution) : KnowledgeOp → List SharedSolution
  | .share sol => store ++ [sol]
  | .vote i => store.map fun s =>
      if s.id = i then { s with votes := s.votes + 1 } else s

/-- A whole sequence of operations applied in order. -/
def runOps (store : List SharedSolution) : List KnowledgeOp → List SharedSolution
  | [] => store
  | op :: rest => runOps (applyOp store op) rest

theorem applyOp_preserves (store : List SharedSolution) (op : KnowledgeOp)
    (s : SharedSolution) (hs : s ∈ store) :
    ∃ s', s' ∈ applyOp store op ∧ s'.id = s.id ∧ s.votes ≤ s'.votes := by
  cases op with
  | share sol => exact ⟨s, by simp [applyOp, hs], rfl, Nat.le_refl _⟩
  | vote i =>
      by_cases h : s.id = i
      · refine ⟨{ s with votes := s.votes + 1 }, ?_, rfl, Nat.le_succ _⟩
        simp only [applyOp, List.mem_map]
        exact ⟨s, hs, by simp [h]⟩
      · refine ⟨s, ?_, rfl, Nat.le_refl _⟩
        simp only [applyOp, List.mem_map]
        exact ⟨s, hs, by simp [h]⟩

/-- C5: across every sequence of share and vote operations — any
serialisation of concurrent votes — each solution present in the store
survives (same id still present: never deleted in normal flow) with a vote
tally at least its old one (monotonically non-decreasing). -/
theorem C5_votes_monotone_no_delete (ops : List KnowledgeOp)
    (store : List SharedSolution) (s : SharedSolution) (hs : s ∈ store) :
    ∃ s', s' ∈ runOps store ops ∧ s'.id = s.id ∧ s.votes ≤ s'.votes := by
  induction ops generalizing store s with
  | nil => exact ⟨s, hs, rfl, Nat.le_refl _⟩
  | cons op rest ih =>
      obtain ⟨s₁, h₁, hid₁, hv₁⟩ := applyOp_preserves store op s hs
      obtain ⟨s₂, h₂, hid₂, hv₂⟩ := ih (applyOp store op) s₁ h₁
      exact ⟨s₂, h₂, hid₂.trans hid₁, hv₁.trans hv₂⟩

/-- C5 witness: one shared solution with three votes, then one vote and one
share: the solution is still present with a tally of at least three. -/
theorem C5_witness :
    ∃ s', s' ∈ runOps [⟨1, 7, "number line game", 3, 0⟩]
        [KnowledgeOp.vote 1, KnowledgeOp.share ⟨2, 8, "story cards", 0, 0⟩] ∧
      s'.id = (⟨1, 7, "number line game", 3, 0⟩ : SharedSolution).id ∧
      (⟨1, 7, "number line game", 3, 0⟩ : SharedSolution).votes ≤ s'.votes :=
  C5_votes_monotone_no_delete
    [KnowledgeOp.vote 1, KnowledgeOp.share ⟨2, 8, "story cards", 0, 0⟩]
    [⟨1, 7, "number line game", 3, 0⟩] ⟨1, 7, "number line game", 3, 0⟩
    (by simp)

/-! ## AI gateway adapter (spec §4.2)

The backend `gemini_service.py` is absent from the snapshot; the adapter is
modelled from the specification: one call to the external model, whose
parsed structured response becomes the playbook, and whose network or
timeout failure is handled by substituting a static fallback playbook — no
retry, no error raised to the caller. -/

/-- Playbook record: the structured fields the adapter parses, plus the
title the quick SOS flow displays (`playbook.title` may be null in the
extension's rendering code, hence an optional field). -/
structure Playbook where
  title : Option String
  summary : String
  immediate_actions : List String
  recovery_steps : List String
  alternatives : List String
  teaching_tips : List String
deriving DecidableEq

/-- Modelled from the spec: outcome of the single external model call — a
parsed structured response, or a network failure, or a timeout. -/
inductive ModelOutcome where
  | ok (title summary : String) (actions recovery alternatives tips : List String)
  | networkError
  | timeout
deriving DecidableEq

/-- Modelled from the spec: the static fallback playbook the adapter
substitutes when the external model is unreachable. -/
def fallbackPlaybook : Playbook :=
  { title := some "Classroom Rescue Playbook",
    summary := "The AI service is unreachable; use these general rescue steps.",
    immediate_actions := ["Pause the activity and regroup the class"],
    recovery_steps := ["Reteach the concept with a concrete example"],
    alternatives := ["Pair stronger students with struggling ones"],
    teaching_tips := ["Keep instructions short and check understanding"] }

/-- Modelled from the spec: the AI gateway adapter.  It performs exactly one
external call (the second component counts the calls made, so the absence of
a retry is visible); a parsed response becomes the playbook, and a network
or timeout failure yields the static fallback instead of an error. -/
def generatePlaybook (outcome : ModelOutcome) : Except String Playbook × Nat :=
  match outcome with
  | .ok t s a r al tp =>
      (.ok { title := some t, summary := s, immediate_actions := a,
             recovery_steps := r, alternatives := al, teaching_tips := tp }, 1)
  | .networkError => (.ok fallbackPlaybook, 1)
  | .timeout => (.ok fallbackPlaybook, 1)

/-- C6: when the external model call fails with a network or timeout error
the adapter returns the static fallback playbook; in every case exactly one
external call is made (no retry) and the adapter returns a playbook, never
an error, so nothing is surfaced to the user. -/
theorem C6_fallback_no_retry_no_error (outcome : ModelOutcome) :
    ((outcome = .networkError ∨ outcome = .timeout) →
      (generatePlaybook outcome).1 = .ok fallbackPlaybook) ∧
    (generatePlaybook outcome).2 = 1 ∧
    ∃ pb, (generatePlaybook outcome).1 = .ok pb := by
  cases outcome <;> simp [generatePlaybook]

/-! ## Quick SOS flow (spec §4.1, §8; chrome-extension/popup.js)

The backend `sos.py` quick endpoint and `context_engine.py` are absent from
the snapshot; they are modelled from the specification: best-effort
keyword classification that returns a tag or null and never raises, then
one gateway call, then a persisted Request returned with its playbook. -/

/-- Modelled from the spec: keyword table of the context extraction
heuristic — a subject tag guessed by keyword containment in the lowercased
input. -/
def subjectKeywords : List (String × String) :=
  [("fraction", "mathematics"), ("math", "mathematics"),
   ("reading", "language"), ("science", "science")]

/-- Modelled from the spec: best-effort subject classification; `none` when
no keyword matches (the \"unknown\"/null failure mode — no exception). -/
def detectSubject (rawInput : String) : Option String :=
  (subjectKeywords.find? fun kw => jsIncludes (jsToLower rawInput) kw.1).map
    Prod.snd

/-- Modelled from the spec: the quick SOS endpoint — an explicit subject
override wins over detection, the gateway is called once, and the resolved
Request is returned with the playbook (the fallback playbook if the gateway
result were ever an error). -/
def quickSOS (rawInput : String) (subjectOverride : Option String)
    (outcome : ModelOutcome) : Request × Playbook :=
  let detected := match subjectOverride with
    | some s => some s
    | none => detectSubject rawInput
  let pb := match (generatePlaybook outcome).1 with
    | .ok p => p
    | .error _ => fallbackPlaybook
  ({ id := 0, author := 0, raw_input := rawInput, detected_subject := detected,
     grade := none, status := .resolved, createdAt := 0 }, pb)

/-- C8: submitting the raw text about fractions with no subject override
yields, for every outcome of the external call, a Request whose
detected subject is populated or null, and a Playbook whose title is
non-null. -/
theorem C8_fractions_request_playbook (outcome : ModelOutcome) :
    ((quickSOS "Students don't understand fractions" none outcome).1.detected_subject
        = none ∨
      ∃ s, (quickSOS "Students don't understand fractions" none outcome).1.detected_subject
        = some s) ∧
    (quickSOS "Students don't understand fractions" none outcome).2.title ≠ none := by
  constructor
  · have h : (quickSOS "Students don't understand fractions" none outcome).1.detected_subject
        = detectSubject "Students don't understand fractions" := rfl
    exact Or.inr ⟨"mathematics", by rw [h]; decide⟩
  · cases outcome <;> simp [quickSOS, generatePlaybook, fallbackPlaybook]

end Sahayak
